import Mathlib

/-! A shallow embedding of the deferred draw-batch compositor of bracket-bevy's
`BracketContext` (src/bracket-bevy/src/context.rs), together with proofs about
batch submission, replay ordering, layer selection, alpha dispatch, and the
aggregate size queries.

Modelling conventions:
* Rust `usize` keys and indices are `Nat`; `i32` coordinates are `Int`, and the
  `as usize` casts of the replay dispatch are modelled as the 64-bit wrapping
  conversion `usizeOf`.
* `f32` values (alpha channels, pixel sizes, font metrics) are modelled as `Rat`:
  the source only stores, copies and `max`-compares them in this file, so no
  floating-point rounding is involved.
* Mutex-guarded fields (`terminals`, `current_layer`, `command_buffers`) are
  plain fields: the source serialises every access behind the locks, so each
  public operation is a function from state to state.
* Unchecked `Vec` indexing (`self.terminals.lock()[self.current_layer()]`) is
  modelled in `Option`: `none` is the out-of-range indexing panic.
* The `ConsoleFrontEnd` trait object is an external collaborator whose concrete
  implementation is not part of this source file; the `Console` structure is
  modelled from the spec: it records its observable metrics (character size,
  pixel size, clipping rectangle, independent foreground/background alpha
  channels) and logs every primitive grid call it receives in `calls`.
* The `trace` field of `BracketContext` is ghost instrumentation: the replay
  loop of `render_all_batches` records every command it dispatches there so
  that the dispatch order can be stated; no modelled operation reads it.
* `sort_unstable_by` (z-order sort) and the stable `sort_by` (batch-internal
  sort) are both modelled by `List.insertionSort`, which is a stable sort.
  For the batch-internal sort this is exact: a stable sort by a total key is
  unique, so it agrees with Rust's stable `sort_by`.  For the z-order sort the
  source only guarantees some permutation sorted by z; the ordering theorems
  below rely only on sortedness and permutation, never on the tie order.
-/

/-- Modelled from the spec: an RGBA color (bracket_color::prelude::RGBA), four
f32 channels carried as rationals. -/
structure RGBA where
  r : ℚ
  g : ℚ
  b : ℚ
  a : ℚ
  deriving DecidableEq

/-- Modelled from the spec: a foreground/background color pair carried by draw
commands. -/
structure ColorPair where
  fg : RGBA
  bg : RGBA
  deriving DecidableEq

/-- Modelled from the spec: bracket_geometry::prelude::Point, i32 coordinates. -/
structure Point where
  x : ℤ
  y : ℤ
  deriving DecidableEq

/-- Modelled from the spec: bracket_geometry::prelude::Rect, i32 corners. -/
structure Rect where
  x1 : ℤ
  y1 : ℤ
  x2 : ℤ
  y2 : ℤ
  deriving DecidableEq

/-- Modelled from the spec: the horizontal span of a rectangle (used by the
replay dispatch as `pos.width() as usize`). -/
def Rect.width (r : Rect) : ℤ := r.x2 - r.x1

/-- Modelled from the spec: the vertical span of a rectangle. -/
def Rect.height (r : Rect) : ℤ := r.y2 - r.y1

/-- Modelled from the spec: crate::consoles::TextAlign. -/
inductive TextAlign where
  | Left
  | Center
  | Right
  deriving DecidableEq

/-- Rust's `expr as usize` on a 64-bit target: wrap the integer into
[0, 2^64). -/
def usizeOf (i : ℤ) : ℕ := (i % (2 ^ 64 : ℤ)).toNat

/-- Modelled from the spec: one primitive call of the Layer Grid capability
interface (the `ConsoleFrontEnd` trait), recorded verbatim with its
arguments.  Calls that mutate a dedicated observable field of the console
(clipping, the alpha channels) are modelled by that field instead. -/
inductive GridOp where
  | cls
  | clsBg (color : RGBA)
  | set (x y : ℕ) (fg bg : RGBA) (glyph : ℕ)
  | setBg (x y : ℕ) (bg : RGBA)
  | print (x y : ℕ) (text : String)
  | printCentered (y : ℕ) (text : String)
  | printColorCentered (y : ℕ) (fg bg : RGBA) (text : String)
  | printCenteredAt (x y : ℕ) (text : String)
  | printColorCenteredAt (x y : ℕ) (fg bg : RGBA) (text : String)
  | printRight (x y : ℕ) (text : String)
  | printColorRight (x y : ℕ) (fg bg : RGBA) (text : String)
  | printColor (x y : ℕ) (text : String) (fg bg : RGBA)
  | printer (x y : ℕ) (output : String) (align : TextAlign) (background : Option RGBA)
  | drawBox (x y width height : ℕ) (fg bg : RGBA)
  | drawHollowBox (x y width height : ℕ) (fg bg : RGBA)
  | drawBoxDouble (x y width height : ℕ) (fg bg : RGBA)
  | drawHollowBoxDouble (x y width height : ℕ) (fg bg : RGBA)
  | fillRegion (target : Rect) (glyph : ℕ) (fg bg : RGBA)
  | drawBarHorizontal (x y width n mx : ℕ) (fg bg : RGBA)
  | drawBarVertical (x y height n mx : ℕ) (fg bg : RGBA)
  deriving DecidableEq

/-- The closed command enumeration of crate::consoles::DrawCommand, exactly the
variants matched by `render_all_batches` (context.rs lines 363-474).  Glyphs
(u16) are carried as `Nat`, i32 numbers as `Int`, f32 alphas as `Rat`. -/
inductive DrawCommand where
  | ClearScreen
  | ClearToColor (color : RGBA)
  | SetTarget (console : ℕ)
  | Set (pos : Point) (color : ColorPair) (glyph : ℕ)
  | SetBackground (pos : Point) (bg : RGBA)
  | Print (pos : Point) (text : String)
  | PrintColor (pos : Point) (text : String) (color : ColorPair)
  | PrintCentered (y : ℤ) (text : String)
  | PrintColorCentered (y : ℤ) (text : String) (color : ColorPair)
  | PrintCenteredAt (pos : Point) (text : String)
  | PrintColorCenteredAt (pos : Point) (text : String) (color : ColorPair)
  | PrintRight (pos : Point) (text : String)
  | PrintColorRight (pos : Point) (text : String) (color : ColorPair)
  | Printer (pos : Point) (text : String) (align : TextAlign) (background : Option RGBA)
  | Box (pos : Rect) (color : ColorPair)
  | HollowBox (pos : Rect) (color : ColorPair)
  | DoubleBox (pos : Rect) (color : ColorPair)
  | HollowDoubleBox (pos : Rect) (color : ColorPair)
  | FillRegion (pos : Rect) (color : ColorPair) (glyph : ℕ)
  | BarHorizontal (pos : Point) (width : ℤ) (n : ℤ) (max : ℤ) (color : ColorPair)
  | BarVertical (pos : Point) (height : ℤ) (n : ℤ) (max : ℤ) (color : ColorPair)
  | SetClipping (clip : Option Rect)
  | SetFgAlpha (alpha : ℚ)
  | SetBgAlpha (alpha : ℚ)
  | SetAllAlpha (fg : ℚ) (bg : ℚ)
  deriving DecidableEq

/-- Modelled from the spec: crate::consoles::DrawBatch — an ordered sequence of
(priority key, command) pairs plus the flag asking for a priority sort at
submission time. -/
structure DrawBatch where
  batch : List (ℕ × DrawCommand)
  needs_sort : Bool
  deriving DecidableEq

/-- Modelled from the spec: `DrawBatch::new()` returns an empty, unsorted
batch. -/
def DrawBatch.new : DrawBatch := { batch := [], needs_sort := false }

/-- Modelled from the spec: the slice of crate::fonts::FontStore read by
`largest_font` — the font's pixel dimensions. -/
structure FontStore where
  font_height_pixels : ℚ × ℚ
  deriving DecidableEq

/-- Modelled from the spec: one layer grid (`Box<dyn ConsoleFrontEnd>`), the
external collaborator behind the terminal list.  `char_size` is (width,
height) in cells, `pixel_size` the layer's pixel dimensions, `fg_alpha` and
`bg_alpha` the two independent all-cell alpha channels declared by the spec,
`clipping` the optional clip rectangle, and `calls` the log of primitive grid
calls received. -/
structure Console where
  char_size : ℕ × ℕ
  pixel_size : ℚ × ℚ
  fg_alpha : ℚ
  bg_alpha : ℚ
  clipping : Option Rect
  calls : List GridOp
  deriving DecidableEq

/-- Record one primitive grid call on this console. -/
def Console.pushOp (c : Console) (op : GridOp) : Console :=
  { c with calls := c.calls ++ [op] }

/-- Modelled from the spec: the trait's set-all-foreground-alpha operation sets
the foreground channel. -/
def Console.set_all_fg_alpha (c : Console) (alpha : ℚ) : Console :=
  { c with fg_alpha := alpha }

/-- Modelled from the spec: the trait's set-all-background-alpha operation sets
the background channel. -/
def Console.set_all_bg_alpha (c : Console) (alpha : ℚ) : Console :=
  { c with bg_alpha := alpha }

/-- Modelled from the spec: the trait's set-both-alphas operation. -/
def Console.set_all_alpha (c : Console) (fg bg : ℚ) : Console :=
  { c with fg_alpha := fg, bg_alpha := bg }

/-- Modelled from the spec: the unchecked cell-id accessor (`at` is a Lean
keyword, hence the suffix); the id is the row-major offset. -/
def Console.at_xy (c : Console) (x y : ℕ) : ℕ := y * c.char_size.1 + x

/-- Modelled from the spec: the checked cell-id accessor; an out-of-range
coordinate is a soft miss, not a panic. -/
def Console.try_at (c : Console) (x y : ℕ) : Option ℕ :=
  if x < c.char_size.1 ∧ y < c.char_size.2 then some (c.at_xy x y) else none

/-- The state of `BracketContext` (context.rs lines 11-22) restricted to the
fields the verified claims are about.  `trace` is ghost instrumentation (see
the module comment); fields irrelevant to the claims (fps, frame time, color
palette, mesh bookkeeping, scaling mode) are omitted. -/
structure BracketContext where
  fonts : List FontStore
  terminals : List Console
  current_layer : ℕ
  command_buffers : List (ℕ × DrawBatch)
  mouse_pixels : ℚ × ℚ
  trace : List DrawCommand
  deriving DecidableEq

/-- Comparison used on command-buffer entries: `sort_unstable_by(|a, b|
a.0.cmp(&b.0))` orders by z-order only. -/
def zLe (a b : ℕ × DrawBatch) : Prop := a.1 ≤ b.1

instance : DecidableRel zLe := fun a b => Nat.decLe a.1 b.1

instance : IsTotal (ℕ × DrawBatch) zLe := ⟨fun a b => Nat.le_total a.1 b.1⟩

instance : IsTrans (ℕ × DrawBatch) zLe := ⟨fun _ _ _ hab hbc => Nat.le_trans hab hbc⟩

/-- Comparison used inside a batch: `sort_by(|a, b| a.0.cmp(&b.0))` orders by
the priority key only. -/
def keyLe (a b : ℕ × DrawCommand) : Prop := a.1 ≤ b.1

instance : DecidableRel keyLe := fun a b => Nat.decLe a.1 b.1

instance : IsTotal (ℕ × DrawCommand) keyLe := ⟨fun a b => Nat.le_total a.1 b.1⟩

instance : IsTrans (ℕ × DrawCommand) keyLe := ⟨fun _ _ _ hab hbc => Nat.le_trans hab hbc⟩

/-- The z-order sort of the command buffer (`batches.sort_unstable_by`, line
360); see the module comment on sort modelling. -/
def zSort (l : List (ℕ × DrawBatch)) : List (ℕ × DrawBatch) :=
  List.insertionSort zLe l

/-- The batch-internal priority sort (`batch.batch.sort_by`, line 353); Rust's
`sort_by` is stable, and a stable sort by a total key is unique, so
`insertionSort` models it exactly. -/
def sortBatchList (l : List (ℕ × DrawCommand)) : List (ℕ × DrawCommand) :=
  List.insertionSort keyLe l

/-- Shared helper for the read-only accessors: `self.terminals.lock()
[self.current_layer()]`; `none` models the indexing panic. -/
def BracketContext.getCur (ctx : BracketContext) : Option Console :=
  ctx.terminals[ctx.current_layer]?

/-- Shared helper for the mutating forwarders: index the locked terminal list at
the current layer (panic when out of range) and update that console in
place. -/
def BracketContext.withCur (ctx : BracketContext) (f : Console → Console) :
    Option BracketContext :=
  match ctx.terminals[ctx.current_layer]? with
  | none => none
  | some c =>
    some { ctx with terminals := ctx.terminals.set ctx.current_layer (f c) }

/-- Context.rs line 44: `get_char_size`. -/
def BracketContext.get_char_size (ctx : BracketContext) : Option (ℕ × ℕ) :=
  ctx.getCur.map fun c => c.char_size

/-- Context.rs line 48: `get_pixel_size` folds a component-wise `f32::max` over
every terminal, starting from (0, 0). -/
def BracketContext.get_pixel_size (ctx : BracketContext) : ℚ × ℚ :=
  ctx.terminals.foldl
    (fun pixel_size t =>
      (max pixel_size.1 t.pixel_size.1, max pixel_size.2 t.pixel_size.2))
    (0, 0)

/-- Context.rs line 58: `largest_font` folds a component-wise `f32::max` over
every registered font, starting from (1, 1). -/
def BracketContext.largest_font (ctx : BracketContext) : ℚ × ℚ :=
  ctx.fonts.foldl
    (fun result fs =>
      (max result.1 fs.font_height_pixels.1, max result.2 fs.font_height_pixels.2))
    (1, 1)

/-- Context.rs line 67: `at` (a Lean keyword, hence the suffix). -/
def BracketContext.at_xy (ctx : BracketContext) (x y : ℕ) : Option ℕ :=
  ctx.getCur.map fun c => c.at_xy x y

/-- Context.rs line 71: `try_at`; the outer `Option` is the layer-indexing
panic, the inner one the checked accessor's soft miss. -/
def BracketContext.try_at (ctx : BracketContext) (x y : ℕ) : Option (Option ℕ) :=
  ctx.getCur.map fun c => c.try_at x y

/-- Context.rs line 75: `get_clipping`. -/
def BracketContext.get_clipping (ctx : BracketContext) : Option (Option Rect) :=
  ctx.getCur.map fun c => c.clipping

/-- Context.rs line 79: `set_clipping`. -/
def BracketContext.set_clipping (ctx : BracketContext) (clipping : Option Rect) :
    Option BracketContext :=
  ctx.withCur fun c => { c with clipping := clipping }

/-- Context.rs line 83: `set_layer` stores the index with no bounds check of its
own. -/
def BracketContext.set_layer (ctx : BracketContext) (layer : ℕ) : BracketContext :=
  { ctx with current_layer := layer }

/-- Context.rs line 87: `cls`. -/
def BracketContext.cls (ctx : BracketContext) : Option BracketContext :=
  ctx.withCur fun c => c.pushOp GridOp.cls

/-- Context.rs line 91: `cls_bg`. -/
def BracketContext.cls_bg (ctx : BracketContext) (color : RGBA) : Option BracketContext :=
  ctx.withCur fun c => c.pushOp (GridOp.clsBg color)

/-- Context.rs line 95: `set`. -/
def BracketContext.set (ctx : BracketContext) (x y : ℕ) (fg bg : RGBA) (glyph : ℕ) :
    Option BracketContext :=
  ctx.withCur fun c => c.pushOp (GridOp.set x y fg bg glyph)

/-- Context.rs line 99: `set_bg`. -/
def BracketContext.set_bg (ctx : BracketContext) (x y : ℕ) (bg : RGBA) :
    Option BracketContext :=
  ctx.withCur fun c => c.pushOp (GridOp.setBg x y bg)

/-- Context.rs line 103: `print`. -/
def BracketContext.print (ctx : BracketContext) (x y : ℕ) (text : String) :
    Option BracketContext :=
  ctx.withCur fun c => c.pushOp (GridOp.print x y text)

/-- Context.rs line 107: `print_centered`. -/
def BracketContext.print_centered (ctx : BracketContext) (y : ℕ) (text : String) :
    Option BracketContext :=
  ctx.withCur fun c => c.pushOp (GridOp.printCentered y text)

/-- Context.rs line 111: `print_color_centered`. -/
def BracketContext.print_color_centered (ctx : BracketContext) (y : ℕ)
    (fg bg : RGBA) (text : String) : Option BracketContext :=
  ctx.withCur fun c => c.pushOp (GridOp.printColorCentered y fg bg text)

/-- Context.rs line 126: `print_centered_at`. -/
def BracketContext.print_centered_at (ctx : BracketContext) (x y : ℕ) (text : String) :
    Option BracketContext :=
  ctx.withCur fun c => c.pushOp (GridOp.printCenteredAt x y text)

/-- Context.rs line 130: `print_color_centered_at`. -/
def BracketContext.print_color_centered_at (ctx : BracketContext) (x y : ℕ)
    (fg bg : RGBA) (text : String) : Option BracketContext :=
  ctx.withCur fun c => c.pushOp (GridOp.printColorCenteredAt x y fg bg text)

/-- Context.rs line 147: `print_right`. -/
def BracketContext.print_right (ctx : BracketContext) (x y : ℕ) (text : String) :
    Option BracketContext :=
  ctx.withCur fun c => c.pushOp (GridOp.printRight x y text)

/-- Context.rs line 151: `print_color_right`. -/
def BracketContext.print_color_right (ctx : BracketContext) (x y : ℕ)
    (fg bg : RGBA) (text : String) : Option BracketContext :=
  ctx.withCur fun c => c.pushOp (GridOp.printColorRight x y fg bg text)

/-- Context.rs line 168: `print_color`. -/
def BracketContext.print_color (ctx : BracketContext) (x y : ℕ) (text : String)
    (foreground background : RGBA) : Option BracketContext :=
  ctx.withCur fun c => c.pushOp (GridOp.printColor x y text foreground background)

/-- Context.rs line 185: `printer`. -/
def BracketContext.printer (ctx : BracketContext) (x y : ℕ) (output : String)
    (align : TextAlign) (background : Option RGBA) : Option BracketContext :=
  ctx.withCur fun c => c.pushOp (GridOp.printer x y output align background)

/-- Context.rs line 196: `draw_box`. -/
def BracketContext.draw_box (ctx : BracketContext) (x y width height : ℕ)
    (fg bg : RGBA) : Option BracketContext :=
  ctx.withCur fun c => c.pushOp (GridOp.drawBox x y width height fg bg)

/-- Context.rs line 215: `draw_hollow_box`. -/
def BracketContext.draw_hollow_box (ctx : BracketContext) (x y width height : ℕ)
    (fg bg : RGBA) : Option BracketContext :=
  ctx.withCur fun c => c.pushOp (GridOp.drawHollowBox x y width height fg bg)

/-- Context.rs line 234: `draw_box_double`. -/
def BracketContext.draw_box_double (ctx : BracketContext) (x y width height : ℕ)
    (fg bg : RGBA) : Option BracketContext :=
  ctx.withCur fun c => c.pushOp (GridOp.drawBoxDouble x y width height fg bg)

/-- Context.rs line 253: `draw_hollow_box_double`. -/
def BracketContext.draw_hollow_box_double (ctx : BracketContext)
    (x y width height : ℕ) (fg bg : RGBA) : Option BracketContext :=
  ctx.withCur fun c => c.pushOp (GridOp.drawHollowBoxDouble x y width height fg bg)

/-- Context.rs line 272: `fill_region`. -/
def BracketContext.fill_region (ctx : BracketContext) (target : Rect) (glyph : ℕ)
    (fg bg : RGBA) : Option BracketContext :=
  ctx.withCur fun c => c.pushOp (GridOp.fillRegion target glyph fg bg)

/-- Context.rs line 282: `draw_bar_horizontal`. -/
def BracketContext.draw_bar_horizontal (ctx : BracketContext)
    (x y width n mx : ℕ) (fg bg : RGBA) : Option BracketContext :=
  ctx.withCur fun c => c.pushOp (GridOp.drawBarHorizontal x y width n mx fg bg)

/-- Context.rs line 304: `draw_bar_vertical`. -/
def BracketContext.draw_bar_vertical (ctx : BracketContext)
    (x y height n mx : ℕ) (fg bg : RGBA) : Option BracketContext :=
  ctx.withCur fun c => c.pushOp (GridOp.drawBarVertical x y height n mx fg bg)

/-- Context.rs line 325: `set_all_fg_alpha` — note that the source body calls
the console's set-all-BACKGROUND-alpha operation. -/
def BracketContext.set_all_fg_alpha (ctx : BracketContext) (alpha : ℚ) :
    Option BracketContext :=
  ctx.withCur fun c => c.set_all_bg_alpha alpha

/-- Context.rs line 329: `set_all_bg_alpha`. -/
def BracketContext.set_all_bg_alpha (ctx : BracketContext) (alpha : ℚ) :
    Option BracketContext :=
  ctx.withCur fun c => c.set_all_bg_alpha alpha

/-- Context.rs line 333: `set_all_alpha`. -/
def BracketContext.set_all_alpha (ctx : BracketContext) (fg bg : ℚ) :
    Option BracketContext :=
  ctx.withCur fun c => c.set_all_alpha fg bg

/-- Context.rs line 347: `new_draw_batch` ignores the context and returns a
fresh empty batch. -/
def BracketContext.new_draw_batch (_ctx : BracketContext) : DrawBatch :=
  DrawBatch.new

/-- Context.rs line 351: `submit_batch` sorts the batch by priority key when
flagged, then appends the (z-order, batch) entry to the command buffer. -/
def BracketContext.submit_batch (ctx : BracketContext) (z_order : ℕ)
    (batch : DrawBatch) : BracketContext :=
  let batch :=
    if batch.needs_sort then { batch with batch := sortBatchList batch.batch }
    else batch
  { ctx with command_buffers := ctx.command_buffers ++ [(z_order, batch)] }

/-- One arm of the replay dispatch (context.rs lines 363-474): route the command
to the matching immediate operation.  `none` is a panic inside that operation.
Note lines 472-473: both `SetFgAlpha` and `SetBgAlpha` dispatch to
`set_all_fg_alpha`. -/
def applyCommand (ctx : BracketContext) (cmd : DrawCommand) : Option BracketContext :=
  match cmd with
  | DrawCommand.ClearScreen => ctx.cls
  | DrawCommand.ClearToColor color => ctx.cls_bg color
  | DrawCommand.SetTarget console => some (ctx.set_layer console)
  | DrawCommand.Set pos color glyph =>
    ctx.set (usizeOf pos.x) (usizeOf pos.y) color.fg color.bg glyph
  | DrawCommand.SetBackground pos bg => ctx.set_bg (usizeOf pos.x) (usizeOf pos.y) bg
  | DrawCommand.Print pos text => ctx.print (usizeOf pos.x) (usizeOf pos.y) text
  | DrawCommand.PrintColor pos text color =>
    ctx.print_color (usizeOf pos.x) (usizeOf pos.y) text color.fg color.bg
  | DrawCommand.PrintCentered y text => ctx.print_centered (usizeOf y) text
  | DrawCommand.PrintColorCentered y text color =>
    ctx.print_color_centered (usizeOf y) color.fg color.bg text
  | DrawCommand.PrintCenteredAt pos text =>
    ctx.print_centered_at (usizeOf pos.x) (usizeOf pos.y) text
  | DrawCommand.PrintColorCenteredAt pos text color =>
    ctx.print_color_centered_at (usizeOf pos.x) (usizeOf pos.y) color.fg color.bg text
  | DrawCommand.PrintRight pos text => ctx.print_right (usizeOf pos.x) (usizeOf pos.y) text
  | DrawCommand.PrintColorRight pos text color =>
    ctx.print_color_right (usizeOf pos.x) (usizeOf pos.y) color.fg color.bg text
  | DrawCommand.Printer pos text align background =>
    ctx.printer (usizeOf pos.x) (usizeOf pos.y) text align background
  | DrawCommand.Box pos color =>
    ctx.draw_box (usizeOf pos.x1) (usizeOf pos.y1) (usizeOf pos.width)
      (usizeOf pos.height) color.fg color.bg
  | DrawCommand.HollowBox pos color =>
    ctx.draw_hollow_box (usizeOf pos.x1) (usizeOf pos.y1) (usizeOf pos.width)
      (usizeOf pos.height) color.fg color.bg
  | DrawCommand.DoubleBox pos color =>
    ctx.draw_box_double (usizeOf pos.x1) (usizeOf pos.y1) (usizeOf pos.width)
      (usizeOf pos.height) color.fg color.bg
  | DrawCommand.HollowDoubleBox pos color =>
    ctx.draw_hollow_box_double (usizeOf pos.x1) (usizeOf pos.y1) (usizeOf pos.width)
      (usizeOf pos.height) color.fg color.bg
  | DrawCommand.FillRegion pos color glyph => ctx.fill_region pos glyph color.fg color.bg
  | DrawCommand.BarHorizontal pos width n mx color =>
    ctx.draw_bar_horizontal (usizeOf pos.x) (usizeOf pos.y) (usizeOf width)
      (usizeOf n) (usizeOf mx) color.fg color.bg
  | DrawCommand.BarVertical pos height n mx color =>
    ctx.draw_bar_vertical (usizeOf pos.x) (usizeOf pos.y) (usizeOf height)
      (usizeOf n) (usizeOf mx) color.fg color.bg
  | DrawCommand.SetClipping clip => ctx.set_clipping clip
  | DrawCommand.SetFgAlpha alpha => ctx.set_all_fg_alpha alpha
  | DrawCommand.SetBgAlpha alpha => ctx.set_all_fg_alpha alpha
  | DrawCommand.SetAllAlpha fg bg => ctx.set_all_alpha fg bg

/-- Dispatch one command and record it in the ghost trace. -/
def dispatchCommand (ctx : BracketContext) (cmd : DrawCommand) : Option BracketContext :=
  (applyCommand ctx cmd).map fun c => { c with trace := c.trace ++ [cmd] }

/-- Replay a list of commands in order, stopping at the first panic. -/
def replayList : BracketContext → List DrawCommand → Option BracketContext
  | ctx, [] => some ctx
  | ctx, cmd :: rest =>
    match dispatchCommand ctx cmd with
    | none => none
    | some ctx' => replayList ctx' rest

/-- Replay the batches of the (already sorted) command buffer in order; within a
batch the commands run in the batch's stored order, priority keys ignored at
replay time. -/
def replayBatches : BracketContext → List (ℕ × DrawBatch) → Option BracketContext
  | ctx, [] => some ctx
  | ctx, zb :: rest =>
    match replayList ctx (zb.2.batch.map Prod.snd) with
    | none => none
    | some ctx' => replayBatches ctx' rest

/-- Context.rs line 358: `render_all_batches` sorts the buffered entries by
z-order, replays every batch in that order, and clears the buffer; a panic
mid-pass (`none`) leaves the buffer uncleared. -/
def BracketContext.render_all_batches (ctx : BracketContext) : Option BracketContext :=
  (replayBatches { ctx with command_buffers := zSort ctx.command_buffers }
      (zSort ctx.command_buffers)).map
    fun c => { c with command_buffers := [] }

/-- The layer index selected after one more command is dispatched: only
`SetTarget` changes it. -/
def targetAfter (cur : ℕ) (cmd : DrawCommand) : ℕ :=
  match cmd with
  | DrawCommand.SetTarget console => console
  | _ => cur

/-- The commands of a buffer in replay order: flatten the z-sorted entries,
keeping each batch's stored order. -/
def dispatchList (l : List (ℕ × DrawBatch)) : List DrawCommand :=
  (zSort l).flatMap fun zb => zb.2.batch.map Prod.snd

/-- Each buffered command tagged with its batch's z-order, in replay order. -/
def zTagged (l : List (ℕ × DrawBatch)) : List (ℕ × DrawCommand) :=
  l.flatMap fun zb => zb.2.batch.map fun pc => (zb.1, pc.2)

/-- Comparison on z-tagged commands: earlier dispatch has lower-or-equal
z-order. -/
def cmdZLe (a b : ℕ × DrawCommand) : Prop := a.1 ≤ b.1

/-- Stated from the spec's words, for comparison with `set_all_fg_alpha`: the
claim asserts that the setter invokes the per-layer FOREGROUND-alpha
operation of the current console. -/
def BracketContext.set_all_fg_alpha_claimed (ctx : BracketContext) (alpha : ℚ) :
    Option BracketContext :=
  ctx.withCur fun c => c.set_all_fg_alpha alpha

/-- Stated from the spec's words, for comparison with `largest_font`: the
component-wise maximum across the registered font metrics, (1, 1) when none
are registered. -/
def fontsComponentMax (fonts : List FontStore) : ℚ × ℚ :=
  match fonts with
  | [] => (1, 1)
  | f :: rest =>
    rest.foldl
      (fun result fs =>
        (max result.1 fs.font_height_pixels.1, max result.2 fs.font_height_pixels.2))
      f.font_height_pixels

/-- Stated from the spec's words, for comparison with `get_pixel_size`: the
component-wise maximum of all layers' pixel sizes, (0, 0) for an empty
stack. -/
def pixelComponentMax (terminals : List Console) : ℚ × ℚ :=
  match terminals with
  | [] => (0, 0)
  | t :: rest =>
    rest.foldl
      (fun result c => (max result.1 c.pixel_size.1, max result.2 c.pixel_size.2))
      t.pixel_size

/-- A concrete 80x50 layer used by the witness states. -/
def consoleA : Console :=
  { char_size := (80, 50), pixel_size := (640, 400), fg_alpha := 1, bg_alpha := 1,
    clipping := none, calls := [] }

/-- A concrete 40x25 layer used by the witness states. -/
def consoleB : Console :=
  { char_size := (40, 25), pixel_size := (320, 200), fg_alpha := 1, bg_alpha := 1,
    clipping := none, calls := [] }

/-- Build a fresh context state (layer 0 selected, empty ghost trace). -/
def mkCtx (fonts : List FontStore) (terminals : List Console)
    (buffers : List (ℕ × DrawBatch)) : BracketContext :=
  { fonts := fonts, terminals := terminals, current_layer := 0,
    command_buffers := buffers, mouse_pixels := (0, 0), trace := [] }

/-- A batch submitted with the higher z-order. -/
def batchHigh : DrawBatch :=
  { batch := [(0, DrawCommand.ClearScreen)], needs_sort := false }

/-- A batch submitted with the lower z-order; it also switches the target
layer. -/
def batchLow : DrawBatch :=
  { batch := [(0, DrawCommand.SetTarget 1), (0, DrawCommand.ClearScreen)],
    needs_sort := false }

/-- Concrete buffer state for the z-order witness: the higher z-order entry was
submitted first. -/
def ctxC1 : BracketContext :=
  mkCtx [] [consoleA, consoleB] [(1, batchHigh), (0, batchLow)]

/-- The rendered result of `ctxC1`. -/
def ctxC1R : BracketContext := ctxC1.render_all_batches.getD ctxC1

/-- Concrete buffer state for the layer-persistence witness: an early batch
selects layer 1 and a later batch draws with no selection of its own. -/
def ctxC2 : BracketContext :=
  mkCtx [] [consoleA, consoleB]
    [(0, { batch := [(0, DrawCommand.SetTarget 1), (0, DrawCommand.ClearScreen)],
           needs_sort := false }),
     (2, { batch := [(0, DrawCommand.Print { x := 1, y := 2 } " hi")],
           needs_sort := false })]

/-- The rendered result of `ctxC2`. -/
def ctxC2R : BracketContext := ctxC2.render_all_batches.getD ctxC2

/-- A batch flagged for sorting, with out-of-order priority keys. -/
def batchSortedW : DrawBatch :=
  { batch := [(5, DrawCommand.ClearScreen), (1, DrawCommand.SetTarget 0),
      (3, DrawCommand.SetTarget 2)],
    needs_sort := true }

/-- The same commands, not flagged for sorting. -/
def batchUnsortedW : DrawBatch := { batchSortedW with needs_sort := false }

/-- Context for the submit-sort witness. -/
def ctxC3 : BracketContext := mkCtx [] [consoleA] []

/-- Context for the buffer-clearing witness. -/
def ctxC5 : BracketContext := mkCtx [] [consoleA] []

/-- Result of submitting an empty batch to `ctxC5` and rendering. -/
def ctxC5R : BracketContext :=
  ((ctxC5.submit_batch 4 DrawBatch.new).render_all_batches).getD ctxC5

/-- Context for the alpha-channel counterexample: distinguishable alpha
channels on the sole layer. -/
def ctxAlpha : BracketContext :=
  mkCtx [] [{ consoleA with fg_alpha := 2, bg_alpha := 3 }] []

/-- A registered font smaller than one pixel in both components. -/
def ctxFontZero : BracketContext :=
  mkCtx [{ font_height_pixels := (0, 0) }] [] []

/-- Two ordinary registered fonts for the largest-font witness. -/
def ctxFonts : BracketContext :=
  mkCtx [{ font_height_pixels := (8, 8) }, { font_height_pixels := (4, 16) }] [] []

/-- A layer stack whose only layer reports a negative pixel size. -/
def ctxPixNeg : BracketContext :=
  mkCtx [] [{ consoleA with pixel_size := (-1, -1) }] []

/-- Two ordinary layers for the pixel-size witness. -/
def ctxPix : BracketContext := mkCtx [] [consoleA, consoleB] []

/-- A batch with duplicate priority keys, flagged for sorting, for the
stability witness. -/
def batchStableW : DrawBatch :=
  { batch := [(2, DrawCommand.ClearScreen), (1, DrawCommand.SetTarget 5),
      (2, DrawCommand.SetTarget 9), (1, DrawCommand.ClearScreen)],
    needs_sort := true }

/-- Context for the stability witness. -/
def ctxC10 : BracketContext := mkCtx [] [consoleA] []

/-- Reading the current console succeeds exactly when the current-layer index is
in range. -/
theorem getCur_isSome (ctx : BracketContext) :
    ctx.getCur.isSome = true ↔ ctx.current_layer < ctx.terminals.length := by
  unfold BracketContext.getCur
  constructor
  · intro h
    by_contra hlt
    rw [List.getElem?_eq_none_iff.mpr (Nat.le_of_not_lt hlt)] at h
    simp at h
  · intro h
    rw [List.getElem?_eq_getElem h]
    rfl

/-- A query that forwards to the current console succeeds exactly when the
current-layer index is in range. -/
theorem getCur_map_isSome (ctx : BracketContext) {α : Type} (f : Console → α) :
    (ctx.getCur.map f).isSome = true ↔ ctx.current_layer < ctx.terminals.length := by
  have hg := getCur_isSome ctx
  cases h : ctx.getCur with
  | none => rw [h] at hg; simpa using hg
  | some c => rw [h] at hg; simpa using hg

/-- A mutation that forwards to the current console succeeds exactly when the
current-layer index is in range. -/
theorem withCur_isSome (ctx : BracketContext) (f : Console → Console) :
    (ctx.withCur f).isSome = true ↔ ctx.current_layer < ctx.terminals.length := by
  have hg := getCur_isSome ctx
  unfold BracketContext.getCur at hg
  unfold BracketContext.withCur
  cases h : ctx.terminals[ctx.current_layer]? with
  | none => rw [h] at hg; simp at hg ⊢; exact hg
  | some c => rw [h] at hg; simp at hg ⊢; exact hg

/-- A successful forward to the current console changes only the terminal
list. -/
theorem withCur_fields {ctx : BracketContext} {f : Console → Console}
    {c : BracketContext} (h : ctx.withCur f = some c) :
    c.current_layer = ctx.current_layer ∧ c.command_buffers = ctx.command_buffers ∧
      c.trace = ctx.trace ∧ c.fonts = ctx.fonts ∧ c.mouse_pixels = ctx.mouse_pixels := by
  unfold BracketContext.withCur at h
  cases hg : ctx.terminals[ctx.current_layer]? with
  | none => rw [hg] at h; cases h
  | some c0 =>
    rw [hg] at h
    cases h
    exact ⟨rfl, rfl, rfl, rfl, rfl⟩

/-- Every successfully dispatched command leaves the command buffer, the ghost
trace, the fonts and the mouse position unchanged, and changes the
current-layer index exactly as `targetAfter` describes: `SetTarget` stores its
layer, every other variant leaves the index alone. -/
theorem applyCommand_fields {ctx : BracketContext} {cmd : DrawCommand}
    {c : BracketContext} (h : applyCommand ctx cmd = some c) :
    c.command_buffers = ctx.command_buffers ∧ c.trace = ctx.trace ∧
      c.fonts = ctx.fonts ∧ c.mouse_pixels = ctx.mouse_pixels ∧
      c.current_layer = targetAfter ctx.current_layer cmd := by
  cases cmd <;>
    first
    | (simp only [applyCommand, BracketContext.set_layer, Option.some.injEq] at h
       subst h
       exact ⟨rfl, rfl, rfl, rfl, rfl⟩)
    | (simp only [applyCommand, BracketContext.cls, BracketContext.cls_bg,
         BracketContext.set, BracketContext.set_bg, BracketContext.print,
         BracketContext.print_centered, BracketContext.print_color_centered,
         BracketContext.print_centered_at, BracketContext.print_color_centered_at,
         BracketContext.print_right, BracketContext.print_color_right,
         BracketContext.print_color, BracketContext.printer, BracketContext.draw_box,
         BracketContext.draw_hollow_box, BracketContext.draw_box_double,
         BracketContext.draw_hollow_box_double, BracketContext.fill_region,
         BracketContext.draw_bar_horizontal, BracketContext.draw_bar_vertical,
         BracketContext.set_clipping, BracketContext.set_all_fg_alpha,
         BracketContext.set_all_bg_alpha, BracketContext.set_all_alpha] at h
       obtain ⟨h1, h2, h3, h4, h5⟩ := withCur_fields h
       exact ⟨h2, h3, h4, h5, by rw [h1]; rfl⟩)

/-- The instrumented dispatch: on success the ghost trace grows by exactly the
dispatched command, all other bookkeeping follows `applyCommand`. -/
theorem dispatchCommand_fields {ctx : BracketContext} {cmd : DrawCommand}
    {c : BracketContext} (h : dispatchCommand ctx cmd = some c) :
    c.command_buffers = ctx.command_buffers ∧ c.trace = ctx.trace ++ [cmd] ∧
      c.fonts = ctx.fonts ∧ c.mouse_pixels = ctx.mouse_pixels ∧
      c.current_layer = targetAfter ctx.current_layer cmd := by
  unfold dispatchCommand at h
  cases ha : applyCommand ctx cmd with
  | none => rw [ha] at h; cases h
  | some c0 =>
    rw [ha] at h
    cases h
    obtain ⟨h1, h2, h3, h4, h5⟩ := applyCommand_fields ha
    exact ⟨h1, congrArg (fun t => t ++ [cmd]) h2, h3, h4, h5⟩

/-- Replaying a command list appends exactly that list to the ghost trace,
leaves buffer, fonts and mouse position unchanged, and folds `targetAfter`
over the commands to obtain the final current-layer index. -/
theorem replayList_fields :
    ∀ (cs : List DrawCommand) (ctx c : BracketContext), replayList ctx cs = some c →
      c.command_buffers = ctx.command_buffers ∧ c.trace = ctx.trace ++ cs ∧
        c.fonts = ctx.fonts ∧ c.mouse_pixels = ctx.mouse_pixels ∧
        c.current_layer = cs.foldl targetAfter ctx.current_layer := by
  intro cs
  induction cs with
  | nil =>
    intro ctx c h
    cases h
    exact ⟨rfl, by simp, rfl, rfl, rfl⟩
  | cons cmd rest ih =>
    intro ctx c h
    unfold replayList at h
    cases hd : dispatchCommand ctx cmd with
    | none => rw [hd] at h; cases h
    | some ctx' =>
      rw [hd] at h
      obtain ⟨d1, d2, d3, d4, d5⟩ := dispatchCommand_fields hd
      obtain ⟨r1, r2, r3, r4, r5⟩ := ih ctx' c h
      refine ⟨by rw [r1, d1], ?_, by rw [r3, d3], by rw [r4, d4], ?_⟩
      · rw [r2, d2]
        simp
      · rw [r5, d5]
        rfl

/-- Replaying a list of batches appends the concatenation of their command
sequences, in batch order, to the ghost trace. -/
theorem replayBatches_fields :
    ∀ (bs : List (ℕ × DrawBatch)) (ctx c : BracketContext),
      replayBatches ctx bs = some c →
      c.command_buffers = ctx.command_buffers ∧
        c.trace = ctx.trace ++ (bs.flatMap fun zb => zb.2.batch.map Prod.snd) ∧
        c.fonts = ctx.fonts ∧ c.mouse_pixels = ctx.mouse_pixels ∧
        c.current_layer =
          (bs.flatMap fun zb => zb.2.batch.map Prod.snd).foldl targetAfter
            ctx.current_layer := by
  intro bs
  induction bs with
  | nil =>
    intro ctx c h
    cases h
    exact ⟨rfl, by simp, rfl, rfl, by simp⟩
  | cons zb rest ih =>
    intro ctx c h
    unfold replayBatches at h
    cases hr : replayList ctx (zb.2.batch.map Prod.snd) with
    | none => rw [hr] at h; cases h
    | some ctx' =>
      rw [hr] at h
      obtain ⟨l1, l2, l3, l4, l5⟩ := replayList_fields _ _ _ hr
      obtain ⟨r1, r2, r3, r4, r5⟩ := ih ctx' c h
      refine ⟨by rw [r1, l1], ?_, by rw [r3, l3], by rw [r4, l4], ?_⟩
      · rw [r2, l2]
        simp [List.flatMap_cons, List.append_assoc]
      · rw [r5, l5]
        simp [List.flatMap_cons, List.foldl_append]

/-- Unfolding of a successful `render_all_batches` pass: the buffer ends empty,
the ghost trace grows by exactly the replay-ordered command list, and the
final current-layer index is the `targetAfter` fold over that list. -/
theorem render_fields {ctx c : BracketContext}
    (h : ctx.render_all_batches = some c) :
    c.command_buffers = [] ∧
      c.trace = ctx.trace ++ dispatchList ctx.command_buffers ∧
      c.fonts = ctx.fonts ∧ c.mouse_pixels = ctx.mouse_pixels ∧
      c.current_layer =
        (dispatchList ctx.command_buffers).foldl targetAfter ctx.current_layer := by
  unfold BracketContext.render_all_batches at h
  cases hr : replayBatches { ctx with command_buffers := zSort ctx.command_buffers }
      (zSort ctx.command_buffers) with
  | none => rw [hr] at h; cases h
  | some c0 =>
    rw [hr] at h
    cases h
    obtain ⟨r1, r2, r3, r4, r5⟩ := replayBatches_fields _ _ _ hr
    exact ⟨rfl, by rw [r2]; rfl, by rw [r3], by rw [r4], by rw [r5]; rfl⟩

/-- All commands of one batch carry the same z tag, so the tagged block is
trivially non-decreasing. -/
theorem pairwise_zTagged_block (z : ℕ) (lc : List (ℕ × DrawCommand)) :
    (lc.map fun pc => (z, pc.2)).Pairwise cmdZLe := by
  induction lc with
  | nil => simp
  | cons pc rest ih =>
    rw [List.map_cons]
    refine List.Pairwise.cons ?_ ih
    intro b hb
    rw [List.mem_map] at hb
    obtain ⟨pc', _, hb⟩ := hb
    subst hb
    exact Nat.le_refl z

/-- Flattening a z-sorted buffer yields a command sequence whose z tags are
non-decreasing: every command of a lower-z batch precedes every command of a
strictly higher-z batch. -/
theorem pairwise_zTagged {l : List (ℕ × DrawBatch)} (h : l.Pairwise zLe) :
    (zTagged l).Pairwise cmdZLe := by
  induction l with
  | nil => simp [zTagged]
  | cons zb rest ih =>
    rw [zTagged, List.flatMap_cons]
    rcases List.pairwise_cons.mp h with ⟨hhead, htail⟩
    refine List.pairwise_append.mpr ⟨pairwise_zTagged_block zb.1 zb.2.batch, ih htail, ?_⟩
    intro a ha b hb
    rw [List.mem_map] at ha
    obtain ⟨pc, _, ha⟩ := ha
    subst ha
    rw [List.mem_flatMap] at hb
    obtain ⟨zb', hzb', hb⟩ := hb
    rw [List.mem_map] at hb
    obtain ⟨pc', _, hb⟩ := hb
    subst hb
    exact hhead zb' hzb'

/-- The filtered commands of one priority key are pairwise ordered by key
(trivially, their keys are all equal). -/
theorem pairwise_filter_key (l : List (ℕ × DrawCommand)) (k : ℕ) :
    (l.filter fun pc => pc.1 == k).Pairwise keyLe := by
  induction l with
  | nil => simp
  | cons pc rest ih =>
    rw [List.filter_cons]
    by_cases hk : (pc.1 == k) = true
    · rw [if_pos hk]
      refine List.Pairwise.cons ?_ ih
      intro b hb
      have hbk := List.of_mem_filter hb
      have h1 : pc.1 = k := by simpa using hk
      have h2 : b.1 = k := by simpa using hbk
      show pc.1 ≤ b.1
      rw [h1, h2]
    · rw [if_neg hk]
      exact ih

/-- Stability of the batch-internal sort: commands sharing one priority key
keep their relative insertion order. -/
theorem filter_key_sortBatchList (l : List (ℕ × DrawCommand)) (k : ℕ) :
    (sortBatchList l).filter (fun pc => pc.1 == k) =
      l.filter (fun pc => pc.1 == k) := by
  have hsub : List.Sublist (l.filter fun pc => pc.1 == k) (sortBatchList l) :=
    List.sublist_insertionSort (pairwise_filter_key l k) (List.filter_sublist l)
  have hsub2 := List.Sublist.filter (fun pc => pc.1 == k) hsub
  rw [List.filter_filter] at hsub2
  simp only [Bool.and_self] at hsub2
  have hperm : List.Perm ((sortBatchList l).filter fun pc => pc.1 == k)
      (l.filter fun pc => pc.1 == k) :=
    (List.perm_insertionSort keyLe l).filter _
  exact (List.Sublist.eq_of_length hsub2 hperm.length_eq.symm).symm

/-- C1: for every sequence of (z-order, batch) pairs passed to `submit_batch`,
`render_all_batches` dispatches the commands of the buffered batches in
non-decreasing z-order — the dispatched sequence is the concatenation of the
batches of a z-sorted permutation of the buffer, so every command of a batch
with lower z-order is applied before every command of a batch with strictly
higher z-order, and within one batch the commands are applied in the batch's
stored order. -/
theorem render_all_batches_z_order (ctx c : BracketContext)
    (h : ctx.render_all_batches = some c) :
    c.trace = ctx.trace ++ dispatchList ctx.command_buffers ∧
      List.Perm (zSort ctx.command_buffers) ctx.command_buffers ∧
      (zSort ctx.command_buffers).Pairwise zLe ∧
      (zTagged (zSort ctx.command_buffers)).Pairwise cmdZLe ∧
      dispatchList ctx.command_buffers =
        (zTagged (zSort ctx.command_buffers)).map Prod.snd := by
  refine ⟨(render_fields h).2.1, List.perm_insertionSort zLe ctx.command_buffers,
    List.sorted_insertionSort zLe ctx.command_buffers,
    pairwise_zTagged (List.sorted_insertionSort zLe ctx.command_buffers), ?_⟩
  simp only [dispatchList, zTagged, List.map_flatMap, List.map_map]
  rfl

/-- Witness for C1: a buffer holding a z=1 batch submitted before a z=0 batch
satisfies the z-order dispatch contract. -/
theorem render_all_batches_z_order_witness :
    ctxC1R.trace = ctxC1.trace ++ dispatchList ctxC1.command_buffers ∧
      List.Perm (zSort ctxC1.command_buffers) ctxC1.command_buffers ∧
      (zSort ctxC1.command_buffers).Pairwise zLe ∧
      (zTagged (zSort ctxC1.command_buffers)).Pairwise cmdZLe ∧
      dispatchList ctxC1.command_buffers =
        (zTagged (zSort ctxC1.command_buffers)).map Prod.snd :=
  render_all_batches_z_order ctxC1 ctxC1R rfl

/-- C2: during one replay pass a `SetTarget` command stores its layer index and
no other command variant modifies the current-layer index, so the selected
layer persists across every subsequently dispatched command — in the same
batch and in all later batches of the pass — until the next `SetTarget`: the
index after any replayed command sequence is the `targetAfter` fold, which
keeps the last `SetTarget` argument (or the initial index when there is
none). -/
theorem set_target_layer_persistence :
    (∀ (ctx : BracketContext) (cmd : DrawCommand) (c : BracketContext),
        dispatchCommand ctx cmd = some c →
          c.current_layer = targetAfter ctx.current_layer cmd) ∧
      (∀ (ctx : BracketContext) (cs : List DrawCommand) (c : BracketContext),
        replayList ctx cs = some c →
          c.current_layer = cs.foldl targetAfter ctx.current_layer) ∧
      (∀ ctx c : BracketContext, ctx.render_all_batches = some c →
        c.current_layer =
          (dispatchList ctx.command_buffers).foldl targetAfter ctx.current_layer) :=
  ⟨fun _ _ _ h => (dispatchCommand_fields h).2.2.2.2,
   fun _ cs _ h => (replayList_fields cs _ _ h).2.2.2.2,
   fun _ _ h => (render_fields h).2.2.2.2⟩

/-- Witness for C2: a first batch selects layer 1, a later batch draws without
selecting, and after the pass layer 1 is still the current layer. -/
theorem set_target_layer_persistence_witness :
    ctxC2R.current_layer =
        (dispatchList ctxC2.command_buffers).foldl targetAfter ctxC2.current_layer ∧
      ctxC2R.current_layer = 1 :=
  ⟨set_target_layer_persistence.2.2 ctxC2 ctxC2R rfl, by decide⟩

/-- C5: whenever `render_all_batches` completes without a fatal condition the
command buffer is left empty, for any prior sequence of submissions and any
batch contents; in particular a single `submit_batch` immediately followed by
`render_all_batches` leaves the buffer empty. -/
theorem render_all_batches_clears_buffer :
    (∀ ctx c : BracketContext, ctx.render_all_batches = some c →
        c.command_buffers = []) ∧
      (∀ (ctx : BracketContext) (z : ℕ) (b : DrawBatch) (c : BracketContext),
        (ctx.submit_batch z b).render_all_batches = some c → c.command_buffers = []) :=
  ⟨fun _ _ h => (render_fields h).1, fun _ _ _ _ h => (render_fields h).1⟩

/-- Witness for C5: submitting an empty batch and rendering leaves the buffer
empty. -/
theorem render_all_batches_clears_buffer_witness :
    ctxC5R.command_buffers = [] :=
  render_all_batches_clears_buffer.2 ctxC5 4 DrawBatch.new ctxC5R rfl

/-- C3: `submit_batch` reorders the batch's (priority key, command) pairs into
ascending key order exactly when `needs_sort` is set — the stored batch is the
key-sorted permutation of the submitted one — and appends the batch with its
command sequence untouched, in insertion order, when the flag is not set,
regardless of the key values. -/
theorem submit_batch_sort_flag (ctx : BracketContext) (z : ℕ) (b : DrawBatch) :
    (b.needs_sort = true →
        (ctx.submit_batch z b).command_buffers =
            ctx.command_buffers ++ [(z, { b with batch := sortBatchList b.batch })] ∧
          (sortBatchList b.batch).Pairwise keyLe ∧
          List.Perm (sortBatchList b.batch) b.batch) ∧
      (b.needs_sort = false →
        (ctx.submit_batch z b).command_buffers = ctx.command_buffers ++ [(z, b)]) := by
  constructor
  · intro hb
    refine ⟨?_, List.sorted_insertionSort keyLe b.batch,
      List.perm_insertionSort keyLe b.batch⟩
    simp [BracketContext.submit_batch, hb]
  · intro hb
    simp [BracketContext.submit_batch, hb]

/-- Witness for C3: a flagged batch with keys 5, 1, 3 is stored sorted; the same
commands unflagged are stored verbatim. -/
theorem submit_batch_sort_flag_witness :
    ((ctxC3.submit_batch 7 batchSortedW).command_buffers =
          ctxC3.command_buffers ++
            [(7, { batchSortedW with batch := sortBatchList batchSortedW.batch })] ∧
        (sortBatchList batchSortedW.batch).Pairwise keyLe ∧
        List.Perm (sortBatchList batchSortedW.batch) batchSortedW.batch) ∧
      (ctxC3.submit_batch 7 batchUnsortedW).command_buffers =
        ctxC3.command_buffers ++ [(7, batchUnsortedW)] :=
  ⟨(submit_batch_sort_flag ctxC3 7 batchSortedW).1 rfl,
   (submit_batch_sort_flag ctxC3 7 batchUnsortedW).2 rfl⟩

/-- C9: `submit_batch` touches no layer state — terminals (hence every layer's
cells), the current-layer index, the ghost trace, the fonts and the mouse
position are unchanged — and its only effect is appending exactly one
(z-order, batch) entry (the batch internally sorted when flagged) to the
command buffer; building a batch (`new_draw_batch`) is pure data and performs
no drawing at all. -/
theorem submit_batch_pure_append (ctx : BracketContext) (z : ℕ) (b : DrawBatch) :
    (ctx.submit_batch z b).terminals = ctx.terminals ∧
      (ctx.submit_batch z b).current_layer = ctx.current_layer ∧
      (ctx.submit_batch z b).trace = ctx.trace ∧
      (ctx.submit_batch z b).fonts = ctx.fonts ∧
      (ctx.submit_batch z b).mouse_pixels = ctx.mouse_pixels ∧
      (ctx.submit_batch z b).command_buffers =
        ctx.command_buffers ++
          [(z, if b.needs_sort then { b with batch := sortBatchList b.batch } else b)] ∧
      ctx.new_draw_batch = { batch := [], needs_sort := false } :=
  ⟨rfl, rfl, rfl, rfl, rfl, rfl, rfl⟩

/-- C10: the batch-internal sort performed by `submit_batch` on a flagged batch
is stable — commands whose priority keys compare equal retain their relative
insertion order, i.e. the key-k subsequence of the stored batch equals the
key-k subsequence of the submitted batch, for every key k. -/
theorem submit_batch_sort_stable (ctx : BracketContext) (z : ℕ) (b : DrawBatch)
    (k : ℕ) (h : b.needs_sort = true) :
    (ctx.submit_batch z b).command_buffers =
        ctx.command_buffers ++ [(z, { b with batch := sortBatchList b.batch })] ∧
      (sortBatchList b.batch).filter (fun pc => pc.1 == k) =
        b.batch.filter (fun pc => pc.1 == k) := by
  refine ⟨by simp [BracketContext.submit_batch, h], ?_⟩
  exact filter_key_sortBatchList b.batch k

/-- Witness for C10: a batch with duplicate keys 2 and 1 sorts to the expected
stable order and the key-2 subsequence is preserved. -/
theorem submit_batch_sort_stable_witness :
    ((ctxC10.submit_batch 3 batchStableW).command_buffers =
          ctxC10.command_buffers ++
            [(3, { batchStableW with batch := sortBatchList batchStableW.batch })] ∧
        (sortBatchList batchStableW.batch).filter (fun pc => pc.1 == 2) =
          batchStableW.batch.filter (fun pc => pc.1 == 2)) ∧
      sortBatchList batchStableW.batch =
        [(1, DrawCommand.SetTarget 5), (1, DrawCommand.ClearScreen),
          (2, DrawCommand.ClearScreen), (2, DrawCommand.SetTarget 9)] :=
  ⟨submit_batch_sort_stable ctxC10 3 batchStableW 2 rfl, by decide⟩

/-- C6: every immediate grid-targeting operation indexes the terminal list with
the current-layer index and nothing else guards it - the operation panics
(`none`) exactly when the current-layer index is not below the number of
layers, and with the index in range the indexing error branch is unreachable
(the call succeeds). -/
theorem immediate_ops_unchecked_layer_index (ctx : BracketContext)
    (x y glyph width height n mx : ℕ) (fg bg : RGBA) (clip : Option Rect)
    (text : String) (align : TextAlign) (background : Option RGBA) (target : Rect)
    (alpha fgq bgq : ℚ) :
    (ctx.get_char_size.isSome = true ↔ ctx.current_layer < ctx.terminals.length) ∧
      ((ctx.at_xy x y).isSome = true ↔ ctx.current_layer < ctx.terminals.length) ∧
      ((ctx.try_at x y).isSome = true ↔ ctx.current_layer < ctx.terminals.length) ∧
      (ctx.get_clipping.isSome = true ↔ ctx.current_layer < ctx.terminals.length) ∧
      ((ctx.set_clipping clip).isSome = true ↔ ctx.current_layer < ctx.terminals.length) ∧
      (ctx.cls.isSome = true ↔ ctx.current_layer < ctx.terminals.length) ∧
      ((ctx.cls_bg fg).isSome = true ↔ ctx.current_layer < ctx.terminals.length) ∧
      ((ctx.set x y fg bg glyph).isSome = true ↔
        ctx.current_layer < ctx.terminals.length) ∧
      ((ctx.set_bg x y bg).isSome = true ↔ ctx.current_layer < ctx.terminals.length) ∧
      ((ctx.print x y text).isSome = true ↔ ctx.current_layer < ctx.terminals.length) ∧
      ((ctx.print_centered y text).isSome = true ↔
        ctx.current_layer < ctx.terminals.length) ∧
      ((ctx.print_color x y text fg bg).isSome = true ↔
        ctx.current_layer < ctx.terminals.length) ∧
      ((ctx.printer x y text align background).isSome = true ↔
        ctx.current_layer < ctx.terminals.length) ∧
      ((ctx.draw_box x y width height fg bg).isSome = true ↔
        ctx.current_layer < ctx.terminals.length) ∧
      ((ctx.fill_region target glyph fg bg).isSome = true ↔
        ctx.current_layer < ctx.terminals.length) ∧
      ((ctx.draw_bar_horizontal x y width n mx fg bg).isSome = true ↔
        ctx.current_layer < ctx.terminals.length) ∧
      ((ctx.set_all_fg_alpha alpha).isSome = true ↔
        ctx.current_layer < ctx.terminals.length) ∧
      ((ctx.set_all_bg_alpha alpha).isSome = true ↔
        ctx.current_layer < ctx.terminals.length) ∧
      ((ctx.set_all_alpha fgq bgq).isSome = true ↔
        ctx.current_layer < ctx.terminals.length) :=
  ⟨getCur_map_isSome ctx _, getCur_map_isSome ctx _, getCur_map_isSome ctx _,
   getCur_map_isSome ctx _, withCur_isSome ctx _, withCur_isSome ctx _,
   withCur_isSome ctx _, withCur_isSome ctx _, withCur_isSome ctx _,
   withCur_isSome ctx _, withCur_isSome ctx _, withCur_isSome ctx _,
   withCur_isSome ctx _, withCur_isSome ctx _, withCur_isSome ctx _,
   withCur_isSome ctx _, withCur_isSome ctx _, withCur_isSome ctx _,
   withCur_isSome ctx _⟩

/-- C4 counterexample: the claim says `set_all_fg_alpha` invokes the per-layer
FOREGROUND-alpha operation; at a concrete one-layer state with fg alpha 2 and
bg alpha 3, setting "all foreground alpha" to 7 disagrees with that claimed
behavior — it leaves the foreground channel at 2 and sets the background
channel to 7. -/
theorem set_all_fg_alpha_not_fg_channel :
    ctxAlpha.set_all_fg_alpha 7 ≠ ctxAlpha.set_all_fg_alpha_claimed 7 ∧
      (ctxAlpha.set_all_fg_alpha 7).map (fun c => c.terminals.map Console.fg_alpha) =
        some [2] ∧
      (ctxAlpha.set_all_fg_alpha 7).map (fun c => c.terminals.map Console.bg_alpha) =
        some [7] :=
  ⟨by decide, by decide, by decide⟩

/-- C4 (amended): the set-all-foreground-alpha and set-all-background-alpha
operations both affect the same channel, namely the BACKGROUND channel —
`set_all_fg_alpha` and `set_all_bg_alpha` both invoke the underlying
per-layer background-alpha operation of the current console, and the replay
dispatch routes both the `SetFgAlpha` and the `SetBgAlpha` command through
`set_all_fg_alpha` — so the two setters (and the two commands) are
extensionally equal. -/
theorem alpha_setters_same_bg_channel (ctx : BracketContext) (alpha : ℚ) :
    ctx.set_all_fg_alpha alpha = ctx.set_all_bg_alpha alpha ∧
      ctx.set_all_fg_alpha alpha = ctx.withCur (fun c => c.set_all_bg_alpha alpha) ∧
      applyCommand ctx (DrawCommand.SetFgAlpha alpha) = ctx.set_all_fg_alpha alpha ∧
      applyCommand ctx (DrawCommand.SetBgAlpha alpha) = ctx.set_all_fg_alpha alpha ∧
      applyCommand ctx (DrawCommand.SetFgAlpha alpha) =
        applyCommand ctx (DrawCommand.SetBgAlpha alpha) :=
  ⟨rfl, rfl, rfl, rfl, rfl⟩

/-- C7 counterexample: with a single registered font of pixel size (0, 0),
`largest_font` returns the default (1, 1) even though fonts are registered,
and that differs from the component-wise maximum (0, 0) of the registered
font metrics. -/
theorem largest_font_not_component_max :
    ctxFontZero.fonts ≠ [] ∧
      ctxFontZero.largest_font = (1, 1) ∧
      fontsComponentMax ctxFontZero.fonts = (0, 0) ∧
      ctxFontZero.largest_font ≠ fontsComponentMax ctxFontZero.fonts :=
  ⟨by decide, by decide, by decide, by decide⟩

/-- C7 (amended): `largest_font` returns the component-wise maximum of the
registered font metrics clamped below by the seed (1, 1): it equals the
component-wise maximum of the fonts whenever every registered font measures
at least 1 pixel in each component, and it returns (1, 1) when no fonts are
registered. -/
theorem largest_font_clamped_max (ctx : BracketContext)
    (h : ∀ f ∈ ctx.fonts,
      (1 : ℚ) ≤ f.font_height_pixels.1 ∧ (1 : ℚ) ≤ f.font_height_pixels.2) :
    ctx.largest_font = fontsComponentMax ctx.fonts ∧
      (ctx.fonts = [] → ctx.largest_font = (1, 1)) := by
  constructor
  · cases hf : ctx.fonts with
    | nil => simp [BracketContext.largest_font, fontsComponentMax, hf]
    | cons f rest =>
      obtain ⟨h1, h2⟩ := h f (by rw [hf]; exact List.mem_cons_self f rest)
      simp only [BracketContext.largest_font, fontsComponentMax, hf, List.foldl_cons]
      congr 1
      show (max 1 f.font_height_pixels.1, max 1 f.font_height_pixels.2) =
        f.font_height_pixels
      rw [max_eq_right h1, max_eq_right h2]
  · intro hf
    simp [BracketContext.largest_font, hf]

/-- Witness for C7 (amended): two ordinary fonts of sizes (8, 8) and (4, 16)
give the component-wise maximum (8, 16). -/
theorem largest_font_clamped_max_witness :
    (ctxFonts.largest_font = fontsComponentMax ctxFonts.fonts ∧
        (ctxFonts.fonts = [] → ctxFonts.largest_font = (1, 1))) ∧
      ctxFonts.largest_font = (8, 16) :=
  ⟨largest_font_clamped_max ctxFonts (by decide), by decide⟩

/-- C8 counterexample: with a single layer reporting pixel size (-1, -1),
`get_pixel_size` returns (0, 0), not the component-wise maximum (-1, -1) of
the layers' pixel sizes. -/
theorem get_pixel_size_not_component_max :
    ctxPixNeg.get_pixel_size = (0, 0) ∧
      pixelComponentMax ctxPixNeg.terminals = (-1, -1) ∧
      ctxPixNeg.get_pixel_size ≠ pixelComponentMax ctxPixNeg.terminals :=
  ⟨by decide, by decide, by decide⟩

/-- C8 (amended): `get_pixel_size` returns the component-wise maximum of the
layers' pixel sizes clamped below by the seed (0, 0): it equals the
component-wise maximum of all layers whenever every layer's pixel size is
component-wise nonnegative, it returns (0, 0) for the empty layer stack, and
it never depends on the current-layer index. -/
theorem get_pixel_size_clamped_max (ctx : BracketContext)
    (h : ∀ t ∈ ctx.terminals, (0 : ℚ) ≤ t.pixel_size.1 ∧ (0 : ℚ) ≤ t.pixel_size.2) :
    ctx.get_pixel_size = pixelComponentMax ctx.terminals ∧
      (ctx.terminals = [] → ctx.get_pixel_size = (0, 0)) ∧
      (∀ i : ℕ,
        ({ ctx with current_layer := i } : BracketContext).get_pixel_size =
          ctx.get_pixel_size) := by
  refine ⟨?_, ?_, fun i => rfl⟩
  · cases ht : ctx.terminals with
    | nil => simp [BracketContext.get_pixel_size, pixelComponentMax, ht]
    | cons t rest =>
      obtain ⟨h1, h2⟩ := h t (by rw [ht]; exact List.mem_cons_self t rest)
      simp only [BracketContext.get_pixel_size, pixelComponentMax, ht, List.foldl_cons]
      congr 1
      show (max 0 t.pixel_size.1, max 0 t.pixel_size.2) = t.pixel_size
      rw [max_eq_right h1, max_eq_right h2]
  · intro ht
    simp [BracketContext.get_pixel_size, ht]

/-- Witness for C8 (amended): two ordinary layers of pixel sizes (640, 400) and
(320, 200) give the component-wise maximum (640, 400). -/
theorem get_pixel_size_clamped_max_witness :
    (ctxPix.get_pixel_size = pixelComponentMax ctxPix.terminals ∧
        (ctxPix.terminals = [] → ctxPix.get_pixel_size = (0, 0)) ∧
        (∀ i : ℕ,
          ({ ctxPix with current_layer := i } : BracketContext).get_pixel_size =
            ctxPix.get_pixel_size)) ∧
      ctxPix.get_pixel_size = (640, 400) :=
  ⟨get_pixel_size_clamped_max ctxPix (by decide), by decide⟩
